import Mathlib

/-!
Shallow embedding of the payment-reconciliation logic of the
renjasmine-treasury repository (src/app/pages/monitor-pembayaran.vue,
src/app/components/ResidentDetailModal.vue and the earlier revision of the
monitor page kept under src/unnamed/part_000; the two pages contain
byte-identical copies of `parseStartPeriod`, `shouldCountPayment`,
`isValidPayment` and `getPaymentSummary`).

JavaScript strings are modelled as `List Char` (`Str`), JavaScript numbers
produced by `parseInt` on the digit captures as `Nat` (all comparisons in the
source involve values far below 2^53, where doubles are exact), and the
amounts produced by `parseFloat` as `Option ℚ` (`none` models `NaN`).  The
ambient `new Date()` read by the source becomes two explicit parameters
`currentYear`/`currentMonthIndex`.
-/

namespace Treasury

/-- JavaScript strings, modelled as lists of characters. -/
abbrev Str := List Char

/-- Characters matched by the JavaScript regex class `\s` (whitespace and
line terminators), as listed in the ECMAScript specification, identified
by code point. -/
def jsWhitespace (c : Char) : Bool :=
  c.toNat = 0x9 || c.toNat = 0xa || c.toNat = 0xb || c.toNat = 0xc ||
  c.toNat = 0xd || c.toNat = 0x20 || c.toNat = 0xa0 || c.toNat = 0x1680 ||
  (0x2000 ≤ c.toNat && c.toNat ≤ 0x200a) ||
  c.toNat = 0x2028 || c.toNat = 0x2029 || c.toNat = 0x202f ||
  c.toNat = 0x205f || c.toNat = 0x3000 || c.toNat = 0xfeff

/-- Characters matched by the JavaScript regex `.` without the `s` flag:
every character except the four line terminators. -/
def dotChar (c : Char) : Bool :=
  !(c.toNat = 0xa || c.toNat = 0xd || c.toNat = 0x2028 || c.toNat = 0x2029)

/-- Characters matched by the JavaScript regex class `\d`. -/
def isDigitChar (c : Char) : Bool := 48 ≤ c.toNat && c.toNat ≤ 57

/-- Numeric value of a decimal digit character. -/
def digitVal (c : Char) : Nat := c.toNat - 48

/-- Value of a string of decimal digits, as computed by `parseInt` on an
all-digit capture (exact for every capture compared in the source). -/
def digitsToNat (ds : Str) : Nat := ds.foldl (fun a c => 10 * a + digitVal c) 0

/-- Model of `String.prototype.trim`: drop leading and trailing whitespace. -/
def jsTrim (s : Str) : Str :=
  (((s.dropWhile jsWhitespace).reverse.dropWhile jsWhitespace)).reverse

/-- Does `l` start with `pat`?  (Helper for `containsSeq`.) -/
def startsWithSeq : Str → Str → Bool
  | _, [] => true
  | [], _ :: _ => false
  | c :: cs, p :: ps => c = p && startsWithSeq cs ps

/-- Model of `String.prototype.includes`: does `pat` occur in `l`? -/
def containsSeq : Str → Str → Bool
  | [], pat => startsWithSeq [] pat
  | c :: t, pat => startsWithSeq (c :: t) pat || containsSeq t pat

/-- Model of `String.prototype.endsWith`. -/
def endsWithSeq (l suffixLit : Str) : Bool :=
  decide (suffixLit.length ≤ l.length) &&
  decide (l.drop (l.length - suffixLit.length) = suffixLit)

/-- Greedy split used to model a regex of shape `X+Y+` anchored on both
sides, where `X` and `Y` are character classes: the match succeeds on the
split with the longest prefix satisfying `p` whose remainder satisfies `q`
(backtracking tries shorter prefixes in order). -/
def greedySplit (p q : Str → Bool) (l : Str) : Option (Str × Str) :=
  (List.range (l.length + 1)).reverse.findSome? (fun cut =>
    if p (l.take cut) && q (l.drop cut) then some (l.take cut, l.drop cut)
    else none)

/-- A year/month (or year/ordinal) pair, the result of parsing a period key. -/
structure Period where
  year : Nat
  month : Nat
deriving DecidableEq, Repr

/-- Model of `paymentKey.match(/^(\d{4})\/(\d+)$/)` followed by `parseInt`
on both captures, as performed inside `shouldCountPayment` and
`isFuturePayment`: exactly four digits, a slash, then one or more digits. -/
def parsePeriodKey (s : Str) : Option Period :=
  match s with
  | a :: b :: c :: d :: '/' :: rest =>
    if isDigitChar a && isDigitChar b && isDigitChar c && isDigitChar d &&
       !rest.isEmpty && rest.all isDigitChar then
      some ⟨digitsToNat [a, b, c, d], digitsToNat rest⟩
    else none
  | _ => none

/-- Model of the regex `^(\d{4})\/(\d{1,2})$` applied to the trimmed start
string inside `parseStartPeriod`. -/
def matchStartFormat (t : Str) : Option Period :=
  match t with
  | a :: b :: c :: d :: '/' :: rest =>
    if isDigitChar a && isDigitChar b && isDigitChar c && isDigitChar d &&
       !rest.isEmpty && decide (rest.length ≤ 2) && rest.all isDigitChar then
      some ⟨digitsToNat [a, b, c, d], digitsToNat rest⟩
    else none
  | _ => none

/-- Model of `parseStartPeriod` (monitor-pembayaran.vue:205,
ResidentDetailModal.vue:535): empty or all-whitespace input and input not
matching `^(\d{4})\/(\d{1,2})$` yield `null` (here `none`); the source's
extra `!yearStr || !monthStr` guard can never fire because both captures
are nonempty whenever the regex matches. -/
def parseStartPeriod (startPembayaran : Str) : Option Period :=
  if startPembayaran.isEmpty then none
  else if (jsTrim startPembayaran).isEmpty then none
  else matchStartFormat (jsTrim startPembayaran)

/-- Model of `shouldCountPayment` (monitor-pembayaran.vue:218,
ResidentDetailModal.vue:548), with the ambient current date made explicit.
An unparsable key is excluded; ordinals above 12 are "special" entries
compared by year only; monthly entries are excluded when strictly in the
future and otherwise compared lexicographically against the start period. -/
def shouldCountPayment (paymentKey : Str) (startPeriod : Option Period)
    (currentYear currentMonthIndex : Nat) : Bool :=
  match parsePeriodKey paymentKey with
  | none => false
  | some p =>
    if p.month > 12 then
      if p.year > currentYear then false
      else
        match startPeriod with
        | none => decide (p.year ≤ currentYear)
        | some sp => decide (p.year ≥ sp.year)
    else
      if p.year > currentYear then false
      else if p.year = currentYear && p.month > currentMonthIndex then false
      else
        match startPeriod with
        | none => true
        | some sp =>
          if p.year > sp.year then true
          else if p.year < sp.year then false
          else decide (p.month ≥ sp.month)

/-- Model of `isFuturePayment` (ResidentDetailModal.vue:595). -/
def isFuturePayment (paymentKey : Str) (currentYear currentMonthIndex : Nat) :
    Bool :=
  match parsePeriodKey paymentKey with
  | none => false
  | some p =>
    if p.month > 12 then false
    else decide (p.year > currentYear) ||
      (decide (p.year = currentYear) && decide (p.month > currentMonthIndex))

/-- Model of `amount.replace(/[^\d.-]/g, "")`: keep only digits, `.`
and `-`. -/
def stripAmountChars (s : Str) : Str :=
  s.filter (fun c => isDigitChar c || c = '.' || c = '-')

/-- Model of `parseFloat` restricted to its use in `isValidPayment`, where
the argument contains only digits, `.` and `-` (everything else was just
stripped): an optional leading sign, then digits, then an optional `.` and
more digits; parsing stops at the first character that does not fit, and
yields `NaN` (`none`) when no digit was consumed.  Values are exact
rationals; the source's doubles agree on every comparison it performs. -/
def jsParseFloat (s : Str) : Option ℚ :=
  let signSplit : Bool × Str :=
    match s with
    | '-' :: t => (true, t)
    | '+' :: t => (false, t)
    | _ => (false, s)
  let intPart := signSplit.2.takeWhile isDigitChar
  let afterInt := signSplit.2.dropWhile isDigitChar
  let fracPart :=
    match afterInt with
    | '.' :: t => t.takeWhile isDigitChar
    | _ => []
  if intPart.isEmpty && fracPart.isEmpty then none
  else
    let mag : ℚ :=
      mkRat (digitsToNat intPart * 10 ^ fracPart.length + digitsToNat fracPart)
        (10 ^ fracPart.length)
    some (if signSplit.1 then -mag else mag)

/-- Model of `isValidPayment` (monitor-pembayaran.vue:303,
ResidentDetailModal.vue:520): falsy or trivial amounts are rejected, the
rest is stripped to its numeric characters, parsed, and accepted exactly
when the parse is a number strictly greater than zero. -/
def isValidPayment (amount : Str) : Bool :=
  if amount.isEmpty then false
  else
    let cleanAmount := jsTrim amount
    if cleanAmount.isEmpty || cleanAmount = ['0'] || cleanAmount = ['-'] then
      false
    else
      match jsParseFloat (stripAmountChars cleanAmount) with
      | none => false
      | some v => decide (0 < v)

/-- Model of `columnKey.match(/^(.+)\s+\(jml\)$/)` (and its `(tgl)`
variant): the key must end in the literal suffix, preceded by at least one
whitespace character, preceded by a nonempty run of `.`-matchable
characters; the greedy `(.+)` capture is returned. -/
def matchKeyBeforeSuffix (k suffixLit : Str) : Option Str :=
  if endsWithSeq k suffixLit then
    (greedySplit (fun a => !a.isEmpty && a.all dotChar)
        (fun b => !b.isEmpty && b.all jsWhitespace)
        (k.take (k.length - suffixLit.length))).map (fun ab => ab.1)
  else none

/-- Model of `paymentKey.match(/^(\d{4}\/\d+)/)`: an unanchored-at-the-end
prefix match returning `YYYY/` followed by the maximal digit run. -/
def periodPrefixOf (s : Str) : Option Str :=
  match s with
  | a :: b :: c :: d :: '/' :: rest =>
    if isDigitChar a && isDigitChar b && isDigitChar c && isDigitChar d &&
       !(rest.takeWhile isDigitChar).isEmpty then
      some ([a, b, c, d] ++ '/' :: rest.takeWhile isDigitChar)
    else none
  | _ => none

/-- The column filter of `getPaymentSummary` (monitor-pembayaran.vue:318-337):
only `(jml)` columns are processed, the payment key is the greedy capture
before the suffix, keys containing `Rapat RT` are skipped, and the period
key is the `YYYY/digits` prefix of the payment key; any failure excludes
the column silently. -/
def amountColumnPeriod (columnKey : Str) : Option Str :=
  if endsWithSeq columnKey "(jml)".toList then
    match matchKeyBeforeSuffix columnKey "(jml)".toList with
    | none => none
    | some paymentKey =>
      if containsSeq paymentKey "Rapat RT".toList then none
      else periodPrefixOf paymentKey
  else none

/-- The aggregate summary returned by `getPaymentSummary`.  `paid` and
`total` are the two counters; `unpaid` is computed as `total - paid` with
JavaScript subtraction, modelled in `ℤ`. -/
structure Summary where
  paid : Nat
  unpaid : Int
  total : Nat
deriving DecidableEq, Repr

/-- One step of the `forEach` loop of `getPaymentSummary`
(monitor-pembayaran.vue:318-346): the accumulator is `(total, paid)`. -/
def summaryStep (startPeriod : Option Period) (cy cm : Nat)
    (acc : Nat × Nat) (col : Str × Str) : Nat × Nat :=
  match amountColumnPeriod col.1 with
  | none => acc
  | some periodKey =>
    if shouldCountPayment periodKey startPeriod cy cm then
      (acc.1 + 1, acc.2 + (if isValidPayment col.2 then 1 else 0))
    else acc

/-- A resident as parsed by `parseResidentData`: identity fields, the raw
`Start Pembayaran` cell (empty when missing) and the flat payment-column
mapping in spreadsheet order. -/
structure Resident where
  id : Str
  name : Str
  perumahan : Str
  nomor : Str
  startPembayaran : Str
  payment : List (Str × Str)
deriving DecidableEq, Repr

/-- Model of `getPaymentSummary` (monitor-pembayaran.vue:296-353,
ResidentDetailModal.vue:617-659, identical code), with the ambient current
date made explicit. -/
def getPaymentSummary (r : Resident) (cy cm : Nat) : Summary :=
  let startPeriod := parseStartPeriod r.startPembayaran
  let tp := r.payment.foldl (summaryStep startPeriod cy cm) (0, 0)
  { paid := tp.2, unpaid := (tp.1 : Int) - (tp.2 : Int), total := tp.1 }

/-- Model of JavaScript division on nonnegative operands where only the
divisor can be zero: `none` stands for the non-finite results (`0/0` is
`NaN`, `x/0` with `x > 0` is `Infinity`), which `toFixed` renders as
non-numeric text. -/
def jsDivQ (a b : ℚ) : Option ℚ := if b = 0 then none else some (a / b)

/-- The percentage shown by ResidentDetailModal.vue:358-367:
`(paid / total * 100).toFixed(0)` with no guard on `total`.  `toFixed(0)`
picks the integer closest to the value, the larger one on ties, which is
`round`; a `none` result means the modal renders the string `NaN%`. -/
def modalPercentageDisplay (r : Resident) (cy cm : Nat) : Option Int :=
  let s := getPaymentSummary r cy cm
  (jsDivQ (s.paid : ℚ) (s.total : ℚ)).map (fun q => round (q * 100))

/-- The percentage shown by the earlier monitor-page revision
(src/unnamed/part_000:456-468): the same expression guarded by
`total > 0 ? ... : 0`. -/
def guardedPercentageDisplay (r : Resident) (cy cm : Nat) : Int :=
  let s := getPaymentSummary r cy cm
  if s.total > 0 then round (((s.paid : ℚ) / (s.total : ℚ)) * 100) else 0

/-! ### Payment history (ResidentDetailModal.vue:661-801) -/

/-- One element of the list built by `getPaymentHistory`. -/
structure HistoryEntry where
  period : Str
  date : Str
  amount : Str
  isPaid : Bool
  shouldCount : Bool
  isFuture : Bool
deriving DecidableEq, Repr

/-- Model of `columnKey.match(/^(.+)\s+\((tgl|jml)\)$/)` in the first pass
of `getPaymentHistory`: returns the greedy payment-key capture and whether
the field is the date (`tgl`) one.  The `typeof columnValue !== "string"`
guard of the source never fires in this model, where values are strings. -/
def matchFieldColumn (columnKey : Str) : Option (Str × Bool) :=
  match matchKeyBeforeSuffix columnKey "(tgl)".toList with
  | some pk => some (pk, true)
  | none =>
    match matchKeyBeforeSuffix columnKey "(jml)".toList with
    | some pk => some (pk, false)
    | none => none

/-- One insertion into the `paymentMap` of `getPaymentHistory`: a JS `Map`
keeps keys in insertion order and the loop overwrites the `date` or
`amount` field (trimmed) of an existing key. -/
def upsertPaymentMap (m : List (Str × (Str × Str))) (k : Str) (isTgl : Bool)
    (v : Str) : List (Str × (Str × Str)) :=
  if m.any (fun e => e.1 = k) then
    m.map (fun e =>
      if e.1 = k then
        (e.1, if isTgl then (jsTrim v, e.2.2) else (e.2.1, jsTrim v))
      else e)
  else
    m ++ [(k, if isTgl then (jsTrim v, []) else ([], jsTrim v))]

/-- The first pass of `getPaymentHistory` (ResidentDetailModal.vue:696-716):
fold the payment columns into a map from payment key to (date, amount). -/
def buildPaymentMap (cols : List (Str × Str)) : List (Str × (Str × Str)) :=
  cols.foldl
    (fun m kv =>
      match matchFieldColumn kv.1 with
      | none => m
      | some (pk, isTgl) => upsertPaymentMap m pk isTgl kv.2)
    []

/-- Model of `paymentKey.match(/^(\d{4})\/(\d+)(?:\s+(.+))?$/)` in the
second pass: returns the year digits, the (greedy) month digits, and the
optional description capture.  When the residue after the digits is
nonempty, the optional group must consume it: at least one whitespace
character, then a nonempty description of `.`-matchable characters, the
whitespace run matched greedily. -/
def matchHistoryKey (k : Str) : Option (Str × Str × Option Str) :=
  match k with
  | a :: b :: c :: d :: '/' :: rest =>
    if isDigitChar a && isDigitChar b && isDigitChar c && isDigitChar d then
      let ds := rest.takeWhile isDigitChar
      let residue := rest.dropWhile isDigitChar
      if ds.isEmpty then none
      else if residue.isEmpty then some ([a, b, c, d], ds, none)
      else
        match greedySplit (fun s => !s.isEmpty && s.all jsWhitespace)
            (fun t => !t.isEmpty && t.all dotChar) residue with
        | some st => some ([a, b, c, d], ds, some st.2)
        | none => none
    else none
  | _ => none

/-- Decimal rendering of a number, as a JS template literal does. -/
def natToDigits (n : Nat) : Str := (Nat.repr n).toList

/-- The Indonesian month abbreviations of `getMonthName` (and of the sort
comparator) in ResidentDetailModal.vue. -/
def monthNamesID : List Str :=
  ["Jan", "Feb", "Mar", "Apr", "Mei", "Jun", "Jul", "Ags", "Sep", "Okt",
   "Nov", "Des"].map String.toList

/-- Model of `getMonthName` (ResidentDetailModal.vue:674-690):
`months[monthNum - 1] || "Month" + monthNum`; an out-of-range index (also
`-1`, reached when `monthNum` is `0`) yields the fallback. -/
def getMonthName (n : Nat) : Str :=
  if n = 0 then "Month".toList ++ natToDigits n
  else (monthNamesID.get? (n - 1)).getD ("Month".toList ++ natToDigits n)

/-- The second pass of `getPaymentHistory`
(ResidentDetailModal.vue:719-755): turn one `paymentMap` entry into a
history entry, or skip it when the key does not match the period regex.
The display period and the rebuilt period key use the raw digit captures. -/
def makeHistoryEntry (startPeriod : Option Period) (cy cm : Nat)
    (entry : Str × (Str × Str)) : Option HistoryEntry :=
  match matchHistoryKey entry.1 with
  | none => none
  | some (yearDigits, monthDigits, desc) =>
    let monthNumInt := digitsToNat monthDigits
    let displayPeriod : Str :=
      if monthNumInt > 12 then
        match desc with
        | some d => d ++ ' ' :: yearDigits
        | none => "Special ".toList ++ yearDigits
      else
        (match desc with
         | some d => d
         | none => getMonthName monthNumInt) ++ ' ' :: yearDigits
    let periodKey := yearDigits ++ '/' :: monthDigits
    some { period := displayPeriod
           date := entry.2.1
           amount := entry.2.2
           isPaid := isValidPayment entry.2.2
           shouldCount := shouldCountPayment periodKey startPeriod cy cm
           isFuture := isFuturePayment periodKey cy cm }

/-- Characters matched by the JavaScript regex class `\w`. -/
def isWordChar (c : Char) : Bool :=
  (65 ≤ c.toNat && c.toNat ≤ 90) || (97 ≤ c.toNat && c.toNat ≤ 122) ||
  isDigitChar c || c.toNat = 95

/-- Leftmost unanchored match of `/(\w+)\s+(\d{4})$/` on a display period,
advancing one character at a time exactly as a backtracking engine does:
a greedy word run, at least one whitespace character, then exactly four
digits ending the string.  Returns the word capture and the year digits. -/
def searchMonthYear : Str → Option (Str × Str)
  | [] => none
  | c :: rest =>
    if isWordChar c then
      let w := (c :: rest).takeWhile isWordChar
      let after := (c :: rest).dropWhile isWordChar
      let sp := after.takeWhile jsWhitespace
      let tl := after.dropWhile jsWhitespace
      if !sp.isEmpty && tl.length = 4 && tl.all isDigitChar then some (w, tl)
      else searchMonthYear rest
    else searchMonthYear rest

/-- Model of `extractYearMonth` inside the sort comparator of
`getPaymentHistory` (ResidentDetailModal.vue:759-789): `Rapat RT` periods
take the trailing four digits as year with month 13; otherwise the
`/(\w+)\s+(\d{4})$/` match supplies the year, and the month is the
1-based index of the word in the month list (`0` when absent or when the
match fails). -/
def extractYearMonth (period : Str) : Nat × Nat :=
  if containsSeq period "Rapat RT".toList then
    if decide (4 ≤ period.length) &&
        (period.drop (period.length - 4)).all isDigitChar then
      (digitsToNat (period.drop (period.length - 4)), 13)
    else (0, 0)
  else
    match searchMonthYear period with
    | none => (0, 0)
    | some wy =>
      (digitsToNat wy.2,
        ((monthNamesID.findIdx? (fun m => m = wy.1)).map (fun i => i + 1)).getD 0)

/-- The sort comparator of `getPaymentHistory` as a `≤` test: the source
comparator returns `bYear - aYear`, tie-broken by `bMonth - aMonth`
(most recent first); the comparator is nonpositive exactly when the years
are different with `b`'s not above `a`'s, or equal with `b`'s month not
above `a`'s. -/
def historyLe (a b : HistoryEntry) : Bool :=
  let ad := extractYearMonth a.period
  let bd := extractYearMonth b.period
  if ad.1 = bd.1 then decide (bd.2 ≤ ad.2) else decide (bd.1 ≤ ad.1)

/-- Stable insertion of an element into a list sorted by `historyLe`. -/
def insertSorted (a : HistoryEntry) : List HistoryEntry → List HistoryEntry
  | [] => [a]
  | b :: t => if historyLe a b then a :: b :: t else b :: insertSorted a t

/-- Stable sort by the history comparator.  `Array.prototype.sort` with a
comparator is specified as a stable sort, and the comparator used here is
consistent (a total preorder on year/month pairs), so every stable sort,
this insertion sort included, produces the order the engine produces. -/
def sortHistory (l : List HistoryEntry) : List HistoryEntry :=
  l.foldr insertSorted []

/-- Model of `getPaymentHistory` (ResidentDetailModal.vue:661-801): build
the payment map, evaluate each entry, and sort most-recent-first. -/
def getPaymentHistory (r : Resident) (cy cm : Nat) : List HistoryEntry :=
  let startPeriod := parseStartPeriod r.startPembayaran
  let entries :=
    (buildPaymentMap r.payment).filterMap (makeHistoryEntry startPeriod cy cm)
  sortHistory entries

/-- The resident of the worked example in spec section 8: start period
2024/3, amount entries for 2024/1 (unpaid), 2024/3 (paid), 2024/5
(unpaid) and 2024/7 (unpaid). -/
def exampleResident : Resident :=
  { id := "1".toList, name := "Warga".toList, perumahan := "A".toList,
    nomor := "1".toList, startPembayaran := "2024/3".toList,
    payment := [("2024/1 Jan (jml)".toList, []),
                ("2024/3 Mar (jml)".toList, "10.000".toList),
                ("2024/5 Mei (jml)".toList, []),
                ("2024/7 Jul (jml)".toList, [])] }

/-- A resident with one special entry (ordinal 13) not labelled
`Rapat RT`. -/
def specialEntryResident : Resident :=
  { id := "2".toList, name := "Warga".toList, perumahan := "A".toList,
    nomor := "2".toList, startPembayaran := [],
    payment := [("2024/13 Arisan (jml)".toList, "5000".toList)] }

/-- A resident with one `Rapat RT` special entry (amount and date). -/
def rapatResident : Resident :=
  { id := "3".toList, name := "Warga".toList, perumahan := "A".toList,
    nomor := "3".toList, startPembayaran := [],
    payment := [("2023/13 Rapat RT (jml)".toList, "5000".toList),
                ("2023/13 Rapat RT (tgl)".toList, "1 Jan".toList)] }

/-- A resident with no payment columns at all, so the summary total is 0. -/
def emptyPaymentResident : Resident :=
  { id := "4".toList, name := "Warga".toList, perumahan := "A".toList,
    nomor := "4".toList, startPembayaran := [], payment := [] }

/-- A resident whose start period uses the legacy `YYYY Mon` form, which
the `YYYY/M` regex rejects. -/
def legacyStartResident : Resident :=
  { id := "5".toList, name := "Warga".toList, perumahan := "A".toList,
    nomor := "5".toList, startPembayaran := "2023 Jan".toList,
    payment := [("2022/12 Des (jml)".toList, "100".toList)] }

/-! ### Helper lemmas -/

/-- No JavaScript whitespace character survives the `[^\d.-]` strip. -/
lemma ws_not_amountChar (c : Char) (h : jsWhitespace c = true) :
    (isDigitChar c || c = '.' || c = '-') = false := by
  simp only [jsWhitespace, Bool.or_eq_true, Bool.and_eq_true, decide_eq_true_eq] at h
  apply Bool.eq_false_iff.mpr
  intro htrue
  simp only [Bool.or_eq_true, isDigitChar, Bool.and_eq_true,
    decide_eq_true_eq] at htrue
  rcases htrue with (h1 | h1) | h1
  · omega
  · subst h1
    have hv : ('.' : Char).toNat = 46 := by decide
    omega
  · subst h1
    have hv : ('-' : Char).toNat = 45 := by decide
    omega

lemma filter_dropWhile {p w : Char → Bool}
    (hpw : ∀ c, w c = true → p c = false) :
    ∀ l : Str, (l.dropWhile w).filter p = l.filter p := by
  intro l
  induction l with
  | nil => rfl
  | cons c t ih =>
    by_cases hw : w c = true
    · rw [List.dropWhile_cons_of_pos hw, ih, List.filter_cons_of_neg]
      simp [hpw c hw]
    · rw [List.dropWhile_cons_of_neg hw]

lemma stripAmountChars_jsTrim (v : Str) :
    stripAmountChars (jsTrim v) = stripAmountChars v := by
  unfold stripAmountChars jsTrim
  rw [List.filter_reverse, filter_dropWhile ws_not_amountChar,
    List.filter_reverse, List.reverse_reverse,
    filter_dropWhile ws_not_amountChar]

lemma isValidPayment_iff (v : Str) :
    isValidPayment v = true ↔
      ∃ q, jsParseFloat (stripAmountChars v) = some q ∧ 0 < q := by
  by_cases h0 : v.isEmpty
  · have hve : v = [] := by simpa using h0
    subst hve
    simp [isValidPayment, stripAmountChars, jsParseFloat]
  · by_cases h1 : (jsTrim v).isEmpty
    · have htr : jsTrim v = [] := by simpa using h1
      have hstrip : stripAmountChars v = [] := by
        rw [← stripAmountChars_jsTrim, htr]; rfl
      simp [isValidPayment, h0, h1, hstrip, jsParseFloat]
    · by_cases h2 : jsTrim v = ['0']
      · have hstrip : stripAmountChars v = ['0'] := by
          rw [← stripAmountChars_jsTrim, h2]; decide
        have hq : jsParseFloat (['0'] : Str) = some 0 := by decide
        simp [isValidPayment, h0, h1, h2, hstrip, hq]
      · by_cases h3 : jsTrim v = ['-']
        · have hstrip : stripAmountChars v = ['-'] := by
            rw [← stripAmountChars_jsTrim, h3]; decide
          have hq : jsParseFloat (['-'] : Str) = none := by decide
          simp [isValidPayment, h0, h1, h2, h3, hstrip, hq]
        · rw [isValidPayment]
          rw [if_neg (by simpa using h0)]
          have hcond : ((jsTrim v).isEmpty || decide (jsTrim v = ['0']) ||
              decide (jsTrim v = ['-'])) = false := by
            simp [h1, h2, h3]
          simp only [hcond, Bool.false_eq_true, if_false]
          rw [stripAmountChars_jsTrim]
          cases hp : jsParseFloat (stripAmountChars v) with
          | none => simp [hp]
          | some q => simp [hp]

lemma summaryStep_of_none {sp : Option Period} {cy cm : Nat}
    {acc : Nat × Nat} {col : Str × Str}
    (h : amountColumnPeriod col.1 = none) :
    summaryStep sp cy cm acc col = acc := by
  simp [summaryStep, h]

lemma summaryStep_of_skip {sp : Option Period} {cy cm : Nat}
    {acc : Nat × Nat} {col : Str × Str} {p : Str}
    (h : amountColumnPeriod col.1 = some p)
    (hs : shouldCountPayment p sp cy cm = false) :
    summaryStep sp cy cm acc col = acc := by
  simp [summaryStep, h, hs]

lemma summaryStep_of_count {sp : Option Period} {cy cm : Nat}
    {acc : Nat × Nat} {col : Str × Str} {p : Str}
    (h : amountColumnPeriod col.1 = some p)
    (hs : shouldCountPayment p sp cy cm = true) :
    summaryStep sp cy cm acc col =
      (acc.1 + 1, acc.2 + if isValidPayment col.2 then 1 else 0) := by
  simp [summaryStep, h, hs]

lemma summaryFold_le (sp : Option Period) (cy cm : Nat) :
    ∀ (cols : List (Str × Str)) (acc : Nat × Nat), acc.2 ≤ acc.1 →
      (cols.foldl (summaryStep sp cy cm) acc).2 ≤
        (cols.foldl (summaryStep sp cy cm) acc).1 := by
  intro cols
  induction cols with
  | nil => intro acc h; simpa using h
  | cons c t ih =>
    intro acc h
    rw [List.foldl_cons]
    apply ih
    cases hac : amountColumnPeriod c.1 with
    | none => rw [summaryStep_of_none hac]; exact h
    | some p =>
      cases hs : shouldCountPayment p sp cy cm with
      | false => rw [summaryStep_of_skip hac hs]; exact h
      | true =>
        rw [summaryStep_of_count hac hs]
        dsimp only
        split <;> omega

lemma foldl_update_other (sp : Option Period) (cy cm : Nat) (k v2 : Str)
    (hk : amountColumnPeriod k = none) :
    ∀ (cols : List (Str × Str)) (acc : Nat × Nat),
      (cols.map (fun p => if p.1 = k then (p.1, v2) else p)).foldl
          (summaryStep sp cy cm) acc =
        cols.foldl (summaryStep sp cy cm) acc := by
  intro cols
  induction cols with
  | nil => intro acc; rfl
  | cons c t ih =>
    intro acc
    rw [List.map_cons, List.foldl_cons, List.foldl_cons]
    have hstep : summaryStep sp cy cm acc (if c.1 = k then (c.1, v2) else c) =
        summaryStep sp cy cm acc c := by
      by_cases hc : c.1 = k
      · rw [if_pos hc]
        rw [summaryStep_of_none (show amountColumnPeriod (c.1, v2).1 = none by
              rw [hc]; exact hk),
          summaryStep_of_none (show amountColumnPeriod c.1 = none by
              rw [hc]; exact hk)]
      · rw [if_neg hc]
    rw [hstep, ih]

lemma parseStartPeriod_eq_none {s : Str}
    (h : matchStartFormat (jsTrim s) = none) : parseStartPeriod s = none := by
  unfold parseStartPeriod
  split
  · rfl
  · split
    · rfl
    · exact h

lemma getPaymentSummary_start_none (r : Resident) (cy cm : Nat)
    (h : parseStartPeriod r.startPembayaran = none) :
    getPaymentSummary r cy cm =
      getPaymentSummary { r with startPembayaran := [] } cy cm := by
  have h2 : parseStartPeriod ([] : Str) = none := rfl
  simp [getPaymentSummary, h, h2]

lemma mem_insertSorted {a x : HistoryEntry} :
    ∀ {l : List HistoryEntry}, x ∈ insertSorted a l ↔ x = a ∨ x ∈ l := by
  intro l
  induction l with
  | nil => simp [insertSorted]
  | cons b t ih =>
    rw [insertSorted]
    split
    · simp [List.mem_cons]
    · simp only [List.mem_cons, ih]
      tauto

lemma mem_sortHistory {x : HistoryEntry} :
    ∀ {l : List HistoryEntry}, x ∈ sortHistory l ↔ x ∈ l := by
  intro l
  induction l with
  | nil => simp [sortHistory]
  | cons b t ih =>
    show x ∈ insertSorted b (sortHistory t) ↔ _
    rw [mem_insertSorted]
    simp only [List.mem_cons]
    rw [show (x ∈ sortHistory t) = (x ∈ t) from propext ih]

lemma shouldCount_monthly_start {s : Str} {y m sy sm cy cm : Nat}
    (hp : parsePeriodKey s = some ⟨y, m⟩) (hm : m ≤ 12)
    (hfut : y < cy ∨ (y = cy ∧ m ≤ cm)) :
    (shouldCountPayment s (some ⟨sy, sm⟩) cy cm = true ↔
      sy < y ∨ (sy = y ∧ sm ≤ m)) := by
  unfold shouldCountPayment
  rw [hp]
  dsimp only
  split_ifs <;> simp_all <;> omega

lemma shouldCount_monthly_future {s : Str} {y m : Nat}
    (sp : Option Period) {cy cm : Nat}
    (hp : parsePeriodKey s = some ⟨y, m⟩) (hm : m ≤ 12)
    (hfut : cy < y ∨ (cy = y ∧ cm < m)) :
    shouldCountPayment s sp cy cm = false := by
  unfold shouldCountPayment
  rw [hp]
  cases sp <;> dsimp only <;> split_ifs <;> simp_all <;> omega

lemma shouldCount_special_future {s : Str} {y m : Nat}
    (sp : Option Period) {cy cm : Nat}
    (hp : parsePeriodKey s = some ⟨y, m⟩) (hm : 12 < m) (hy : cy < y) :
    shouldCountPayment s sp cy cm = false := by
  unfold shouldCountPayment
  rw [hp]
  cases sp <;> dsimp only <;> split_ifs <;> simp_all

lemma shouldCount_monthly_none {s : Str} {y m cy cm : Nat}
    (hp : parsePeriodKey s = some ⟨y, m⟩) (hm : m ≤ 12)
    (hfut : y < cy ∨ (y = cy ∧ m ≤ cm)) :
    shouldCountPayment s none cy cm = true := by
  unfold shouldCountPayment
  rw [hp]
  dsimp only
  split_ifs <;> simp_all <;> omega

lemma shouldCount_special_none {s : Str} {y m cy cm : Nat}
    (hp : parsePeriodKey s = some ⟨y, m⟩) (hm : 12 < m) (hy : y ≤ cy) :
    shouldCountPayment s none cy cm = true := by
  unfold shouldCountPayment
  rw [hp]
  dsimp only
  split_ifs <;> simp_all <;> omega

lemma amountColumnPeriod_of_not_jml {k : Str}
    (h : endsWithSeq k "(jml)".toList = false) :
    amountColumnPeriod k = none := by
  unfold amountColumnPeriod
  rw [h]
  simp

lemma endsWith_tgl_not_jml {k : Str}
    (h : endsWithSeq k "(tgl)".toList = true) :
    endsWithSeq k "(jml)".toList = false := by
  unfold endsWithSeq at h ⊢
  simp only [Bool.and_eq_true, decide_eq_true_eq] at h
  simp only [Bool.and_eq_false_iff, decide_eq_false_iff_not]
  right
  have h5t : ("(tgl)".toList : Str).length = 5 := rfl
  have h5j : ("(jml)".toList : Str).length = 5 := rfl
  rw [h5j]
  rw [h5t] at h
  rw [h.2]
  decide

lemma endsWith_of_matchKey {k suf pk : Str}
    (h : matchKeyBeforeSuffix k suf = some pk) : endsWithSeq k suf = true := by
  by_contra hne
  rw [Bool.not_eq_true] at hne
  unfold matchKeyBeforeSuffix at h
  rw [hne] at h
  simp at h

lemma amountColumnPeriod_rapat {k pk : Str}
    (h1 : matchKeyBeforeSuffix k "(jml)".toList = some pk)
    (h2 : containsSeq pk "Rapat RT".toList = true) :
    amountColumnPeriod k = none := by
  unfold amountColumnPeriod
  rw [endsWith_of_matchKey h1]
  simp only [if_pos rfl]
  rw [h1]
  simp only []
  rw [if_pos h2]
  simp

lemma makeHistoryEntry_shouldCount {sp : Option Period} {cy cm : Nat}
    {k : Str} {d : Str × Str} {e : HistoryEntry} {yd md : Str}
    {ds : Option Str}
    (hk : matchHistoryKey k = some (yd, md, ds))
    (he : makeHistoryEntry sp cy cm (k, d) = some e) :
    e.shouldCount = shouldCountPayment (yd ++ '/' :: md) sp cy cm := by
  unfold makeHistoryEntry at he
  rw [hk] at he
  obtain rfl := (Option.some.inj he).symm
  rfl

lemma mem_getPaymentHistory {r : Resident} {cy cm : Nat} {k : Str}
    {d : Str × Str} {e : HistoryEntry}
    (hmem : (k, d) ∈ buildPaymentMap r.payment)
    (hmk : makeHistoryEntry (parseStartPeriod r.startPembayaran) cy cm (k, d) =
      some e) :
    e ∈ getPaymentHistory r cy cm := by
  unfold getPaymentHistory
  apply mem_sortHistory.mpr
  exact List.mem_filterMap.mpr ⟨(k, d), hmem, hmk⟩

/-! ### Claims -/

/-- C1 counterexample: on the spec's own example input the code does not
return total 3, paid 1, unpaid 2. -/
theorem c1_spec_example_fails :
    getPaymentSummary exampleResident 2024 6 ≠
      { paid := 1, unpaid := 2, total := 3 } := by decide

/-- C1 amended: the entry 2024/1 lies strictly before the start period
2024/3 and is excluded along with the future entry 2024/7, so the summary
is total 2, paid 1, unpaid 1. -/
theorem c1_amended_example :
    getPaymentSummary exampleResident 2024 6 =
      { paid := 1, unpaid := 1, total := 2 } := by decide

/-- C2 counterexample: a special entry (ordinal 13 > 12) whose label does
not contain `Rapat RT` does contribute to paid and total. -/
theorem c2_special_entry_counts :
    getPaymentSummary specialEntryResident 2025 6 =
        { paid := 1, unpaid := 0, total := 1 } ∧
      getPaymentSummary { specialEntryResident with payment := [] } 2025 6 =
        { paid := 0, unpaid := 0, total := 0 } := by decide

/-- C2 amended: an amount column whose payment key contains `Rapat RT`
contributes nothing to the summary counters; every payment-map entry whose
key parses still appears in the evaluated payment-history list, and its
`shouldCount` flag is the period evaluator applied to the entry's
`year/ordinal` key. -/
theorem c2_amended_rapat_excluded_but_listed :
    (∀ (sp : Option Period) (cy cm : Nat) (acc : Nat × Nat) (k v pk : Str),
        matchKeyBeforeSuffix k "(jml)".toList = some pk →
        containsSeq pk "Rapat RT".toList = true →
        summaryStep sp cy cm acc (k, v) = acc) ∧
      (∀ (r : Resident) (cy cm : Nat) (k : Str) (d : Str × Str)
          (e : HistoryEntry),
        (k, d) ∈ buildPaymentMap r.payment →
        makeHistoryEntry (parseStartPeriod r.startPembayaran) cy cm (k, d) =
          some e →
        e ∈ getPaymentHistory r cy cm) ∧
      (∀ (sp : Option Period) (cy cm : Nat) (k : Str) (d : Str × Str)
          (e : HistoryEntry) (yd md : Str) (ds : Option Str),
        matchHistoryKey k = some (yd, md, ds) →
        makeHistoryEntry sp cy cm (k, d) = some e →
        e.shouldCount = shouldCountPayment (yd ++ '/' :: md) sp cy cm) := by
  refine ⟨?_, ?_, ?_⟩
  · intro sp cy cm acc k v pk h1 h2
    exact summaryStep_of_none (amountColumnPeriod_rapat h1 h2)
  · intro r cy cm k d e hmem hmk
    exact mem_getPaymentHistory hmem hmk
  · intro sp cy cm k d e yd md ds hk he
    exact makeHistoryEntry_shouldCount hk he

/-- C2 witness: the concrete `Rapat RT` entry of `rapatResident`
contributes nothing to the counters, appears in the history list, and
carries the evaluator's flag. -/
theorem c2_amended_witness :
    summaryStep none 2025 6 (0, 0)
        ("2023/13 Rapat RT (jml)".toList, "5000".toList) = (0, 0) ∧
      ({ period := "Rapat RT 2023".toList, date := "1 Jan".toList,
         amount := "5000".toList, isPaid := true, shouldCount := true,
         isFuture := false } : HistoryEntry) ∈
        getPaymentHistory rapatResident 2025 6 ∧
      ({ period := "Rapat RT 2023".toList, date := "1 Jan".toList,
         amount := "5000".toList, isPaid := true, shouldCount := true,
         isFuture := false } : HistoryEntry).shouldCount =
        shouldCountPayment ("2023".toList ++ '/' :: "13".toList) none 2025 6 :=
  ⟨c2_amended_rapat_excluded_but_listed.1 none 2025 6 (0, 0)
      "2023/13 Rapat RT (jml)".toList "5000".toList
      "2023/13 Rapat RT".toList (by decide) (by decide),
   c2_amended_rapat_excluded_but_listed.2.1 rapatResident 2025 6
      "2023/13 Rapat RT".toList ("1 Jan".toList, "5000".toList)
      { period := "Rapat RT 2023".toList, date := "1 Jan".toList,
        amount := "5000".toList, isPaid := true, shouldCount := true,
        isFuture := false }
     (by decide) (by decide),
   c2_amended_rapat_excluded_but_listed.2.2 none 2025 6
      "2023/13 Rapat RT".toList ("1 Jan".toList, "5000".toList)
      { period := "Rapat RT 2023".toList, date := "1 Jan".toList,
        amount := "5000".toList, isPaid := true, shouldCount := true,
        isFuture := false }
      "2023".toList "13".toList (some "Rapat RT".toList)
      (by decide) (by decide)⟩

/-- C3: a monthly entry that is not strictly in the future, for a resident
with a start period, counts exactly when its (year, ordinal) is
lexicographically at least the start (startYear, startMonth); an entry the
evaluator rejects contributes to neither total nor paid, whatever its
amount. -/
theorem c3_monthly_start_lex (s : Str) (y m sy sm cy cm : Nat)
    (hp : parsePeriodKey s = some ⟨y, m⟩) (hm : m ≤ 12)
    (hnf : y < cy ∨ (y = cy ∧ m ≤ cm)) :
    (shouldCountPayment s (some ⟨sy, sm⟩) cy cm = true ↔
        sy < y ∨ (sy = y ∧ sm ≤ m)) ∧
      (∀ (k v : Str) (acc : Nat × Nat),
        amountColumnPeriod k = some s →
        shouldCountPayment s (some ⟨sy, sm⟩) cy cm = false →
        summaryStep (some ⟨sy, sm⟩) cy cm acc (k, v) = acc) := by
  refine ⟨shouldCount_monthly_start hp hm hnf, ?_⟩
  intro k v acc hak hsf
  exact summaryStep_of_skip hak hsf

/-- C3 witness: the pre-start entry 2024/1 under start 2024/3 at current
date 2024-06 is not counted, and its paid amount column contributes
nothing. -/
theorem c3_witness :
    (shouldCountPayment "2024/1".toList (some ⟨2024, 3⟩) 2024 6 = true ↔
        2024 < 2024 ∨ (2024 = 2024 ∧ 3 ≤ 1)) ∧
      summaryStep (some ⟨2024, 3⟩) 2024 6 (5, 4)
        ("2024/1 Jan (jml)".toList, "10.000".toList) = (5, 4) :=
  ⟨(c3_monthly_start_lex "2024/1".toList 2024 1 2024 3 2024 6 (by decide)
      (by decide) (by decide)).1,
   (c3_monthly_start_lex "2024/1".toList 2024 1 2024 3 2024 6 (by decide)
      (by decide) (by decide)).2 "2024/1 Jan (jml)".toList "10.000".toList
      (5, 4) (by decide) (by decide)⟩

/-- C4: a resident with no countable columns has total 0; the guarded
display of the earlier monitor page shows 0, but the modal display divides
0 by 0 and renders NaN (modelled as `none`), contradicting the guarded
percentage the spec requires. -/
theorem c4_modal_percentage_nan_on_empty :
    (getPaymentSummary emptyPaymentResident 2025 6).total = 0 ∧
      guardedPercentageDisplay emptyPaymentResident 2025 6 = 0 ∧
      modalPercentageDisplay emptyPaymentResident 2025 6 = none := by decide

/-- C5: a strictly future period never counts, whatever the start period:
a monthly entry later than the current year/month, or a special entry in a
later year, has `shouldCountPayment = false`. -/
theorem c5_future_never_counts (s : Str) (y m : Nat) (sp : Option Period)
    (cy cm : Nat) (hp : parsePeriodKey s = some ⟨y, m⟩) :
    (m ≤ 12 → (cy < y ∨ (cy = y ∧ cm < m)) →
        shouldCountPayment s sp cy cm = false) ∧
      (12 < m → cy < y → shouldCountPayment s sp cy cm = false) :=
  ⟨fun hm hf => shouldCount_monthly_future sp hp hm hf,
   fun hm hy => shouldCount_special_future sp hp hm hy⟩

/-- C5 witness: the future monthly entry 2024/7 and the future special
entry 2026/13 are both excluded at current date 2024-06. -/
theorem c5_witness :
    shouldCountPayment "2024/7".toList (some ⟨2024, 3⟩) 2024 6 = false ∧
      shouldCountPayment "2026/13".toList (some ⟨2024, 3⟩) 2024 6 = false :=
  ⟨(c5_future_never_counts "2024/7".toList 2024 7 (some ⟨2024, 3⟩) 2024 6
      (by decide)).1 (by decide) (by decide),
   (c5_future_never_counts "2026/13".toList 2026 13 (some ⟨2024, 3⟩) 2024 6
      (by decide)).2 (by decide) (by decide)⟩

/-- C6: an amount is valid exactly when the raw string, stripped to
digits, `.` and `-`, parses to a (finite) number strictly greater than
zero; and a counted column increments total by one and paid by one exactly
when its amount is valid. -/
theorem c6_paid_iff_positive_amount :
    (∀ v : Str, isValidPayment v = true ↔
        ∃ q, jsParseFloat (stripAmountChars v) = some q ∧ 0 < q) ∧
      (∀ (sp : Option Period) (cy cm : Nat) (k v p : Str) (acc : Nat × Nat),
        amountColumnPeriod k = some p →
        shouldCountPayment p sp cy cm = true →
        summaryStep sp cy cm acc (k, v) =
          (acc.1 + 1, acc.2 + if isValidPayment v then 1 else 0)) :=
  ⟨isValidPayment_iff,
   fun _ _ _ _ _ _ _ h1 h2 => summaryStep_of_count h1 h2⟩

/-- C6 witness: the concrete amount `Rp 5.000` strips to `5.000`, parses
to 5 > 0, and a counted column carrying it increments both counters. -/
theorem c6_witness :
    (isValidPayment "Rp 5.000".toList = true ↔
        ∃ q, jsParseFloat (stripAmountChars "Rp 5.000".toList) = some q ∧
          0 < q) ∧
      summaryStep none 2025 6 (0, 0)
        ("2024/2 Feb (jml)".toList, "Rp 5.000".toList) =
        ((0, 0).1 + 1,
          (0, 0).2 + if isValidPayment "Rp 5.000".toList then 1 else 0) :=
  ⟨c6_paid_iff_positive_amount.1 "Rp 5.000".toList,
   c6_paid_iff_positive_amount.2 none 2025 6 "2024/2 Feb (jml)".toList
     "Rp 5.000".toList "2024/2".toList (0, 0) (by decide) (by decide)⟩

/-- C7: malformed input never aborts the transform: a column whose key
does not yield a period leaves the accumulator unchanged, an amount that
parses to NaN is treated as unpaid, and a start string the format rejects
behaves exactly like an absent start period. -/
theorem c7_malformed_input_excluded :
    (∀ (sp : Option Period) (cy cm : Nat) (acc : Nat × Nat) (k v : Str),
        amountColumnPeriod k = none → summaryStep sp cy cm acc (k, v) = acc) ∧
      (∀ v : Str, jsParseFloat (stripAmountChars v) = none →
        isValidPayment v = false) ∧
      (∀ (r : Resident) (cy cm : Nat),
        parseStartPeriod r.startPembayaran = none →
        getPaymentSummary r cy cm =
          getPaymentSummary { r with startPembayaran := [] } cy cm) := by
  refine ⟨fun sp cy cm acc k v h => summaryStep_of_none h, ?_,
    fun r cy cm h => getPaymentSummary_start_none r cy cm h⟩
  intro v hn
  cases hv : isValidPayment v with
  | false => rfl
  | true =>
    obtain ⟨q, hq, _⟩ := (isValidPayment_iff v).mp hv
    rw [hn] at hq
    exact absurd hq (by simp)

/-- C7 witness: an unparsable column key, the non-numeric amount `lunas`,
and the malformed start string `2023 Jan` are each handled by exclusion or
default. -/
theorem c7_witness :
    summaryStep none 2025 6 (3, 2) ("Keterangan".toList, "x".toList) =
        (3, 2) ∧
      isValidPayment "lunas".toList = false ∧
      getPaymentSummary legacyStartResident 2024 6 =
        getPaymentSummary { legacyStartResident with startPembayaran := [] }
          2024 6 :=
  ⟨c7_malformed_input_excluded.1 none 2025 6 (3, 2) "Keterangan".toList
      "x".toList (by decide),
   c7_malformed_input_excluded.2.1 "lunas".toList (by decide),
   c7_malformed_input_excluded.2.2 legacyStartResident 2024 6 (by decide)⟩

/-- C8: for every resident the summary satisfies paid ≤ total,
unpaid = total - paid, and unpaid is never negative. -/
theorem c8_summary_invariant (r : Resident) (cy cm : Nat) :
    (getPaymentSummary r cy cm).paid ≤ (getPaymentSummary r cy cm).total ∧
      (getPaymentSummary r cy cm).unpaid =
        ((getPaymentSummary r cy cm).total : Int) -
          ((getPaymentSummary r cy cm).paid : Int) ∧
      0 ≤ (getPaymentSummary r cy cm).unpaid := by
  have h := summaryFold_le (parseStartPeriod r.startPembayaran) cy cm
    r.payment (0, 0) (by simp)
  unfold getPaymentSummary
  dsimp only
  refine ⟨h, rfl, ?_⟩
  omega

/-- C9: the summary reads only amount columns: overwriting the value of a
date column, or of any column whose key does not end in `(jml)`, leaves
paid, unpaid and total unchanged. -/
theorem c9_summary_ignores_non_amount_columns (r : Resident) (cy cm : Nat)
    (k v2 : Str)
    (h : endsWithSeq k "(tgl)".toList = true ∨
      endsWithSeq k "(jml)".toList = false) :
    getPaymentSummary
        { r with payment :=
            r.payment.map (fun p => if p.1 = k then (p.1, v2) else p) }
        cy cm =
      getPaymentSummary r cy cm := by
  have hk : amountColumnPeriod k = none := by
    rcases h with h | h
    · exact amountColumnPeriod_of_not_jml (endsWith_tgl_not_jml h)
    · exact amountColumnPeriod_of_not_jml h
  unfold getPaymentSummary
  dsimp only
  rw [foldl_update_other _ _ _ _ _ hk]

/-- C9 witness: overwriting the `Rapat RT` date column of `rapatResident`
does not change its summary. -/
theorem c9_witness :
    getPaymentSummary
        { rapatResident with payment :=
            (rapatResident.payment.map
              (fun p => if p.1 = "2023/13 Rapat RT (tgl)".toList
                then (p.1, "9 Feb".toList) else p)) }
        2025 6 =
      getPaymentSummary rapatResident 2025 6 :=
  c9_summary_ignores_non_amount_columns rapatResident 2025 6
    "2023/13 Rapat RT (tgl)".toList "9 Feb".toList (Or.inl (by decide))

/-- C10: a start string the `YYYY/M` format rejects (such as the legacy
`2023 Jan`) makes the summary identical to the no-start summary, and every
non-future monthly period then counts, including periods before the
intended start. -/
theorem c10_malformed_start_counts_all (r : Resident) (cy cm : Nat)
    (h : matchStartFormat (jsTrim r.startPembayaran) = none) :
    getPaymentSummary r cy cm =
        getPaymentSummary { r with startPembayaran := [] } cy cm ∧
      (∀ (s : Str) (y m : Nat), parsePeriodKey s = some ⟨y, m⟩ → m ≤ 12 →
        (y < cy ∨ (y = cy ∧ m ≤ cm)) →
        shouldCountPayment s (parseStartPeriod r.startPembayaran) cy cm =
          true) ∧
      (∀ (s : Str) (y m : Nat), parsePeriodKey s = some ⟨y, m⟩ → 12 < m →
        y ≤ cy →
        shouldCountPayment s (parseStartPeriod r.startPembayaran) cy cm =
          true) := by
  have hn := parseStartPeriod_eq_none h
  refine ⟨getPaymentSummary_start_none r cy cm hn, ?_, ?_⟩
  · intro s y m hp hm hf
    rw [hn]
    exact shouldCount_monthly_none hp hm hf
  · intro s y m hp hm hy
    rw [hn]
    exact shouldCount_special_none hp hm hy

/-- C10 witness: with the legacy start `2023 Jan` the summary equals the
no-start summary and the period 2022/12, before the intended start,
counts. -/
theorem c10_witness :
    getPaymentSummary legacyStartResident 2024 6 =
        getPaymentSummary { legacyStartResident with startPembayaran := [] }
          2024 6 ∧
      shouldCountPayment "2022/12".toList
        (parseStartPeriod legacyStartResident.startPembayaran) 2024 6 =
        true ∧
      shouldCountPayment "2022/13".toList
        (parseStartPeriod legacyStartResident.startPembayaran) 2024 6 =
        true :=
  ⟨(c10_malformed_start_counts_all legacyStartResident 2024 6 (by decide)).1,
   (c10_malformed_start_counts_all legacyStartResident 2024 6
       (by decide)).2.1
     "2022/12".toList 2022 12 (by decide) (by decide) (by decide),
   (c10_malformed_start_counts_all legacyStartResident 2024 6
       (by decide)).2.2
     "2022/13".toList 2022 13 (by decide) (by decide) (by decide)⟩

end Treasury
